import Mathlib

/-!
Shallow embedding of the vizro-core fragment under review: the `Table`
component wrapper (`src/vizro/models/_components/table.py`) and the base
model's discriminated-union extension and serialization mechanism, which is
exercised by the unit tests (`tests/unit/vizro/models/test_base.py`).

Python dicts of keyword arguments are embedded as association lists
`List (String × PyVal)`; pandas data frames as lists of rows, each row an
association list from column name to cell value; fallible Python code
(raising `ValidationError`, `ValueError`, `KeyError`, ...) as `Except`.
-/

set_option autoImplicit false

namespace Vizro

/-- A cell of a pandas data frame (only the shapes the code manipulates). -/
inductive CellVal where
  | str (s : String)
  | int (n : Int)
deriving DecidableEq, Repr

/-- A data-frame row: an association list from column name to cell value. -/
abbrev Row := List (String × CellVal)

/-- A pandas data frame, embedded as its list of rows. -/
abbrev DataFrame := List Row

/-- A Python value appearing as a bound argument of a captured callable. -/
inductive PyVal where
  | str (s : String)
  | int (n : Int)
  | strList (xs : List String)
  | dataFrame (df : DataFrame)
  | pyNone
deriving DecidableEq, Repr

/-- `d[k] = v` on a Python dict embedded as an association list: overwrite the
binding if the key is present, append it otherwise. -/
def setKey (kvs : List (String × PyVal)) (k : String) (v : PyVal) :
    List (String × PyVal) :=
  if kvs.any (fun kv => kv.1 = k) then
    kvs.map (fun kv => if kv.1 = k then (k, v) else kv)
  else
    kvs ++ [(k, v)]

/-- The object returned by invoking the underlying table callable: all the
code inspects is whether it has an `id` attribute and what that attribute is
(`hasattr(underlying_table_object, "id")` / `underlying_table_object.id`). -/
structure UnderlyingObject where
  attr_id : Option String
deriving DecidableEq, Repr

/-- Modelled from the spec: `vizro.models.types.CapturedCallable` (not under
`src/`). Per the spec's data model an "Action" references a callable and a
figure field is a "figure specification": a captured callable bundles the
wrapped function (`_function`, here its name and, for the table case, its
behaviour on a kwargs dict) with the bound keyword arguments (`_arguments`);
indexing a captured callable returns the bound argument of that name. -/
structure CapturedCallable where
  function_name : String
  arguments : List (String × PyVal)
  func : List (String × PyVal) → UnderlyingObject

/-- `CapturedCallable.__getitem__`: look the name up among the bound
arguments; a missing name is a `KeyError`. -/
def CapturedCallable.getitem (c : CapturedCallable) (arg_name : String) :
    Except String PyVal :=
  match c.arguments.lookup arg_name with
  | some v => Except.ok v
  | none => Except.error ("KeyError: " ++ arg_name)

/-- The `Action` model: per the spec's data model, a model referencing a
callable. -/
structure Action where
  id : String
  function : CapturedCallable

/-- Errors surfacing from model construction and extension: the validation
library's standard validation errors, and plain Python `ValueError`s from the
custom precondition checks. -/
inductive VizroError where
  | validationError (msg : String)
  | valueError (msg : String)
deriving DecidableEq, Repr

/-- A child model class as the discriminated-union machinery sees it: a class
(identified by name) carrying a literal `type` tag, e.g. `ChildZ` with tag
`child_Z`. -/
structure ModelType where
  name : String
  tag : String
deriving DecidableEq, Repr

/-- A value supplied for a discriminated-union field: either a model instance
(of some child class) or a plain dict carrying a literal `type` entry. -/
inductive ChildValue where
  | inst (t : ModelType)
  | dict (tag : String)
deriving DecidableEq, Repr

/-- The `type` discriminator carried by a child value. -/
def ChildValue.tag : ChildValue → String
  | ChildValue.inst t => t.tag
  | ChildValue.dict tag => tag

/-- The validation library's message when a child value's tag matches no
registered variant. -/
def no_match_message (tag : String) : String :=
  "No match for discriminator 'type' and value '" ++ tag ++ "'"

/-- Modelled from the spec: the validation library's resolution of a
discriminated-union field (`VizroBaseModel` and its host library are not
under `src/`). The tag field must match one of the registered variants: the
variant is selected by the literal `type` tag; an instance whose tag matches
is kept as-is, a dict whose tag matches is built into the selected variant
class, and a value whose tag matches no variant is a standard validation
error. -/
def validate_discriminated (variants : List ModelType) (v : ChildValue) :
    Except VizroError ModelType :=
  match variants.find? (fun variant => variant.tag = v.tag) with
  | some selected =>
    match v with
    | ChildValue.inst t => Except.ok t
    | ChildValue.dict _ => Except.ok selected
  | none => Except.error (VizroError.validationError (no_match_message v.tag))

/-- Validation of a list-of-discriminated-union field: each element is
resolved in order; the first failure is the field's validation error. -/
def validate_discriminated_list (variants : List ModelType) :
    List ChildValue → Except VizroError (List ModelType)
  | [] => Except.ok []
  | v :: vs =>
    match validate_discriminated variants v with
    | Except.error e => Except.error e
    | Except.ok t =>
      match validate_discriminated_list variants vs with
      | Except.error e => Except.error e
      | Except.ok ts => Except.ok (t :: ts)

/-- Constructing a parent model whose discriminated-union field is given the
child value: the field holds the validated child. -/
def construct_parent (variants : List ModelType) (child : ChildValue) :
    Except VizroError ModelType :=
  validate_discriminated variants child

/-- Constructing a parent model whose list-of-discriminated-union field is
given the list of child values. -/
def construct_parent_with_list (variants : List ModelType)
    (children : List ChildValue) : Except VizroError (List ModelType) :=
  validate_discriminated_list variants children

/-- The annotation of a field `add_type` may be pointed at: a discriminated
union, a list of a discriminated union, or a plain (non-discriminated) union
of child classes. -/
inductive FieldKind where
  | discUnion (variants : List ModelType)
  | listDiscUnion (variants : List ModelType)
  | plainUnion (variants : List ModelType)
deriving DecidableEq, Repr

/-- The validation library's error when a variant whose tag is already
registered is added to a discriminated union. -/
def duplicate_tag_message (tag : String) : String :=
  "Duplicate discriminator tag '" ++ tag ++ "'"

/-- The `ValueError` message of `add_type`'s precondition check on a field
that is not a discriminated union. -/
def must_be_discriminated_message (field_name : String) : String :=
  "Field '" ++ field_name ++ "' must be a discriminated union"

/-- Modelled from the spec: `VizroBaseModel.add_type` (not under `src/`).
It registers a new child class into the previously fixed set of allowed
variants of a discriminated-union (or list-of-discriminated-union) field;
registering a tag already among the registered variants errors (the
invariant is enforced by the validation library), and pointing it at a
non-discriminated union raises the precondition `ValueError` before any
registration takes place. -/
def add_type (field_name : String) (field : FieldKind) (new : ModelType) :
    Except VizroError FieldKind :=
  match field with
  | FieldKind.discUnion variants =>
    if variants.any (fun v => v.tag = new.tag) then
      Except.error (VizroError.validationError (duplicate_tag_message new.tag))
    else
      Except.ok (FieldKind.discUnion (variants ++ [new]))
  | FieldKind.listDiscUnion variants =>
    if variants.any (fun v => v.tag = new.tag) then
      Except.error (VizroError.validationError (duplicate_tag_message new.tag))
    else
      Except.ok (FieldKind.listDiscUnion (variants ++ [new]))
  | FieldKind.plainUnion _ =>
    Except.error (VizroError.valueError (must_be_discriminated_message field_name))

/-- Modelled from the spec: the base model's `dict()` serialization
(`VizroBaseModel.dict`, not under `src/`; its behaviour is pinned by
`TestDict` in the unit tests). A model is serialized by taking its fields,
dropping whichever keys the exclusion setting in force removes
(no arguments, `exclude_unset=True`, a manual `exclude` set, or the
model-defined `__vizro_exclude_fields__` all amount to some removed key
set), and then setting the key `__vizro_model__` to the model's class
name. -/
structure VizroModelData where
  class_name : String
  fields : List (String × PyVal)

/-- The serialized dict of a model under a given exclusion setting, embedded
as the predicate selecting the excluded field keys. -/
def vizro_dict (m : VizroModelData) (excluded : String → Bool) :
    List (String × PyVal) :=
  setKey (m.fields.filter (fun kv => !excluded kv.1)) "__vizro_model__"
    (PyVal.str m.class_name)

/-- The `Table` model's declared fields: `id` (inherited from the base
model), the required `figure` captured callable, `title` defaulting to the
empty string, and `actions` defaulting to the empty list. The `type` field
is `Literal["table"]`, so its value is the constant `"table"` (see
`Table.type`); the private attributes `_callable_object_id` and
`_output_property` are not fields and are threaded explicitly where used. -/
structure Table where
  id : String
  figure : CapturedCallable
  title : String := ""
  actions : List Action := []

/-- The literal type tag of every `Table`: `type: Literal["table"] = "table"`. -/
def Table.type (_self : Table) : String := "table"

/-- Constructing a `Table` supplying only the required `figure` (and the
base-model `id`): the remaining fields take their declared defaults. -/
def Table.construct_with_defaults (id : String) (figure : CapturedCallable) :
    Table :=
  { id := id, figure := figure }

/-- `Table.__getitem__`: the key `"type"` is redirected to the model's own
`type` attribute; any other key is looked up among the captured figure
callable's arguments. -/
def Table.getitem (self : Table) (arg_name : String) : Except String PyVal :=
  if arg_name = "type" then
    Except.ok (PyVal.str self.type)
  else
    self.figure.getitem arg_name

/-- The `value` of the `active_cell` callback trigger when it is truthy: the
dict carrying the clicked cell's `column_id` and `row`. A falsy value
(`None` or an empty dict) is embedded as `none` in `CtdActiveCell.value`. -/
structure ActiveCell where
  column_id : String
  row : Nat
deriving DecidableEq, Repr

/-- The `active_cell` entry of the callback trigger dict: its `id` is the
underlying table's id, its `value` the clicked cell (or falsy). -/
structure CtdActiveCell where
  id : String
  value : Option ActiveCell
deriving DecidableEq, Repr

/-- The `derived_viewport_data` entry of the callback trigger dict: its
`value` is the list of visible rows (falsy exactly when empty). -/
structure CtdDerivedViewportData where
  id : String
  value : List Row
deriving DecidableEq, Repr

/-- The `ctd_filter_interaction` dict handed to `_filter_interaction`, with
its `active_cell` and `derived_viewport_data` entries. -/
structure FilterInteractionCtd where
  active_cell : CtdActiveCell
  derived_viewport_data : CtdDerivedViewportData
deriving DecidableEq, Repr

/-- The loop guard `action.function._function.__name__ != "filter_interaction"
or target not in action.function["targets"]` (negated: `true` means the
action is processed). Python's `or` short-circuits, so `targets` is only
looked up when the function name matches; a missing `targets` argument is a
`KeyError` and a non-list one a `TypeError`. -/
def matches_filter_interaction (action : Action) (target : String) :
    Except String Bool :=
  if action.function.function_name ≠ "filter_interaction" then
    Except.ok false
  else
    match action.function.arguments.lookup "targets" with
    | some (PyVal.strList targets) => Except.ok (decide (target ∈ targets))
    | some _ => Except.error "TypeError: argument is not iterable"
    | none => Except.error "KeyError: targets"

/-- The `for action in source_table_actions` loop of `_filter_interaction`:
each action passing the guard filters `data_frame` down to the rows whose
value in the clicked column equals the clicked cell's data, read from the
derived viewport data (`list index out of range` and missing columns are the
corresponding Python errors). -/
def filter_interaction_loop (target : String) (cell : ActiveCell)
    (dvd : List Row) :
    List Action → DataFrame → Except String DataFrame
  | [], data_frame => Except.ok data_frame
  | action :: rest, data_frame => do
    let m ← matches_filter_interaction action target
    if m then
      let column := cell.column_id
      let derived_viewport_data_row := cell.row
      match dvd.get? derived_viewport_data_row with
      | none => Except.error "IndexError: list index out of range"
      | some row =>
        match row.lookup column with
        | none => Except.error ("KeyError: " ++ column)
        | some clicked_data =>
          filter_interaction_loop target cell dvd rest
            (data_frame.filter (fun r => r.lookup column = some clicked_data))
    else
      filter_interaction_loop target cell dvd rest data_frame

/-- `Table._filter_interaction`. When the `active_cell` value or the
`derived_viewport_data` value is falsy the input data frame is returned
unchanged; otherwise the actions of the parent vizro model of the underlying
table (the external helpers `_get_component_actions` and
`_get_parent_vizro_model` are abstracted into the `source_table_actions`
parameter, applied to `ctd_active_cell["id"]`) drive the filtering loop. -/
def Table.filter_interaction (_self : Table)
    (source_table_actions : String → List Action) (data_frame : DataFrame)
    (target : String) (ctd_filter_interaction : FilterInteractionCtd) :
    Except String DataFrame :=
  let ctd_active_cell := ctd_filter_interaction.active_cell
  let ctd_derived_viewport_data := ctd_filter_interaction.derived_viewport_data
  match ctd_active_cell.value, ctd_derived_viewport_data.value with
  | none, _ => Except.ok data_frame
  | some _, [] => Except.ok data_frame
  | some cell, dvd_head :: dvd_tail =>
    filter_interaction_loop target cell (dvd_head :: dvd_tail)
      (source_table_actions ctd_active_cell.id) data_frame

/-- The `ValueError` message of `Table.pre_build` when actions are set but
the underlying table object exposes no `id`. -/
def pre_build_error_message : String :=
  "Underlying `Table` callable has no attribute 'id'. To enable actions triggered by the `Table` a valid 'id' has to be provided to the `Table` callable."

/-- The underlying table object `pre_build` inspects: the figure's wrapped
function invoked on the bound arguments with `data_frame` overwritten by an
empty data frame. -/
def Table.underlying_table_object (self : Table) : UnderlyingObject :=
  self.figure.func (setKey self.figure.arguments "data_frame"
    (PyVal.dataFrame []))

/-- `Table.pre_build`. `prior` is the state of the private attribute
`_callable_object_id` on entry (`none` when it has never been set, the
`PrivateAttr()` default); the result is its state on exit. The attribute is
set to the underlying object's `id` when that object has one, and a
`ValueError` is raised when `self.actions` is truthy and the attribute is
still unset afterwards. -/
def Table.pre_build (self : Table) (prior : Option String) :
    Except String (Option String) :=
  let underlying := self.underlying_table_object
  let callable_object_id :=
    match underlying.attr_id with
    | some i => some i
    | none => prior
  if !self.actions.isEmpty && callable_object_id.isNone then
    Except.error pre_build_error_message
  else
    Except.ok callable_object_id

/-- The child classes used by the unit tests: `ChildX` with tag `child_x`. -/
def child_x : ModelType := { name := "ChildX", tag := "child_x" }

/-- `ChildY` with tag `child_y`. -/
def child_y : ModelType := { name := "ChildY", tag := "child_y" }

/-- `ChildZ` with tag `child_Z` (not registered in the initial union). -/
def child_z : ModelType := { name := "ChildZ", tag := "child_Z" }

/-- A concrete captured table callable whose invocation yields an object with
an `id` attribute. -/
def sample_figure : CapturedCallable :=
  { function_name := "dash_data_table"
    arguments := [("page_size", PyVal.int 10)]
    func := fun _ => { attr_id := some "underlying_table_id" } }

/-- A concrete `Table` built from `sample_figure` with the declared
defaults. -/
def sample_table : Table :=
  Table.construct_with_defaults "table_id" sample_figure

/-- A concrete callback trigger dict whose `active_cell` value is falsy. -/
def sample_ctd : FilterInteractionCtd :=
  { active_cell := { id := "underlying_table_id", value := none }
    derived_viewport_data := { id := "underlying_table_id", value := [] } }

/-- A one-row data frame used to exercise `_filter_interaction`. -/
def sample_df : DataFrame := [[("species", CellVal.str "setosa")]]

section Lemmas

/-- No registered variant carries the tag: the discriminator search fails. -/
theorem find?_tag_eq_none {variants : List ModelType} {t : String}
    (h : ∀ v ∈ variants, v.tag ≠ t) :
    variants.find? (fun variant => variant.tag = t) = none := by
  rw [List.find?_eq_none]
  intro x hx
  simp [h x hx]

/-- Appending a variant with a fresh tag: the discriminator search for that
tag selects exactly the appended variant. -/
theorem find?_tag_append {variants : List ModelType} {new : ModelType}
    (h : ∀ v ∈ variants, v.tag ≠ new.tag) :
    (variants ++ [new]).find? (fun variant => variant.tag = new.tag)
      = some new := by
  rw [List.find?_append, find?_tag_eq_none h]
  simp [List.find?]

/-- With pairwise-distinct tags, the discriminator search for a registered
variant's tag selects exactly that variant. -/
theorem find?_tag_nodup {variants : List ModelType} {v : ModelType}
    (hnodup : (variants.map ModelType.tag).Nodup) (hmem : v ∈ variants) :
    variants.find? (fun x => x.tag = v.tag) = some v := by
  induction variants with
  | nil => cases hmem
  | cons w ws ih =>
    rw [List.map_cons, List.nodup_cons] at hnodup
    rcases List.mem_cons.mp hmem with rfl | hmem'
    · exact List.find?_cons_of_pos _ (by simp)
    · have hw : ¬ (w.tag = v.tag) := by
        intro he
        exact hnodup.1 (he ▸ List.mem_map_of_mem ModelType.tag hmem')
      rw [List.find?_cons_of_neg _ (by simp [hw])]
      exact ih hnodup.2 hmem'

/-- No registered variant carries the tag: the duplicate-tag scan is
negative. -/
theorem any_tag_eq_false {variants : List ModelType} {t : String}
    (h : ∀ v ∈ variants, v.tag ≠ t) :
    variants.any (fun v => v.tag = t) = false := by
  simp only [List.any_eq_false, decide_eq_true_eq]
  exact h

/-- A registered variant carries the tag: the duplicate-tag scan is
positive. -/
theorem any_tag_eq_true {variants : List ModelType} {v : ModelType}
    {t : String} (hmem : v ∈ variants) (ht : v.tag = t) :
    variants.any (fun x => x.tag = t) = true :=
  List.any_eq_true.mpr ⟨v, hmem, by simp [ht]⟩

/-- Looking a key up after overwriting every binding of that key. -/
theorem lookup_map_overwrite (k : String) (v : PyVal) :
    ∀ kvs : List (String × PyVal),
      (kvs.map (fun kv => if kv.1 = k then (k, v) else kv)).lookup k
        = if kvs.any (fun kv => kv.1 = k) then some v else none
  | [] => rfl
  | (k1, v1) :: kvs => by
    by_cases hk : k1 = k
    · subst hk
      rw [List.map_cons, if_pos rfl, List.lookup]
      simp
    · have hk' : k ≠ k1 := fun he => hk he.symm
      simp only [List.map_cons, if_neg hk, List.any_cons]
      rw [List.lookup, beq_false_of_ne hk']
      simp only [decide_eq_true_eq, hk, false_or]
      exact lookup_map_overwrite k v kvs

/-- Looking a key up in a list that does not bind it, extended by a binding
for it. -/
theorem lookup_append_absent (k : String) (v : PyVal) :
    ∀ kvs : List (String × PyVal),
      kvs.any (fun kv => kv.1 = k) = false →
      (kvs ++ [(k, v)]).lookup k = some v
  | [], _ => by simp [List.lookup]
  | (k1, v1) :: kvs, h => by
    simp only [List.any_cons, Bool.or_eq_false_iff, decide_eq_false_iff_not]
      at h
    rw [List.cons_append, List.lookup, beq_false_of_ne (fun he => h.1 he.symm)]
    exact lookup_append_absent k v kvs (by
      simp only [List.any_eq_false, decide_eq_true_eq]
      intro x hx
      have := List.any_eq_false.mp h.2 x hx
      simpa using this)

/-- `setKey` always leaves the written binding visible to `lookup`. -/
theorem lookup_setKey (kvs : List (String × PyVal)) (k : String) (v : PyVal) :
    (setKey kvs k v).lookup k = some v := by
  unfold setKey
  by_cases h : kvs.any (fun kv => kv.1 = k) = true
  · rw [if_pos h, lookup_map_overwrite, if_pos h]
  · rw [if_neg h]
    exact lookup_append_absent k v kvs (Bool.eq_false_iff.mpr h)

end Lemmas

/-- Claim C1: constructing a parent model with a child value whose literal
`type` tag is not among the registered variants of the discriminated union
raises the validation library's standard validation error, whose message is
exactly `No match for discriminator 'type' and value '<tag>'` (so it matches
`No match for discriminator 'type'`), for both a scalar
discriminated-union field and a list-of-discriminated-union field. -/
theorem construct_parent_no_type_match (variants : List ModelType)
    (child : ModelType) (h : ∀ v ∈ variants, v.tag ≠ child.tag) :
    construct_parent variants (ChildValue.inst child)
      = Except.error (VizroError.validationError (no_match_message child.tag))
    ∧ construct_parent_with_list variants [ChildValue.inst child]
      = Except.error
          (VizroError.validationError (no_match_message child.tag)) := by
  have hfind : variants.find?
      (fun variant => variant.tag = child.tag) = none :=
    find?_tag_eq_none h
  refine ⟨?_, ?_⟩
  · simp [construct_parent, validate_discriminated, hfind, ChildValue.tag]
  · simp [construct_parent_with_list, validate_discriminated_list,
      validate_discriminated, hfind, ChildValue.tag]

/-- Witness for claim C1 at the test's input: the union registers `ChildX`
and `ChildY`, and a `ChildZ` instance (tag `child_Z`) is rejected with the
no-match validation error, for the scalar and the list field alike. -/
theorem construct_parent_no_type_match_witness :
    construct_parent [child_x, child_y] (ChildValue.inst child_z)
      = Except.error (VizroError.validationError (no_match_message "child_Z"))
    ∧ construct_parent_with_list [child_x, child_y] [ChildValue.inst child_z]
      = Except.error
          (VizroError.validationError (no_match_message "child_Z")) :=
  construct_parent_no_type_match [child_x, child_y] child_z (by decide)

/-- Claim C2: for a new child class with a fresh literal `type` tag,
`add_type` succeeds and extends the previously fixed set of registered
variants, the parent then accepts an instance of the new class and the field
holds that very instance — whereas the unextended union would have rejected
it; both for the scalar and the list-of-discriminated-union field. -/
theorem add_type_model_instantiation (variants : List ModelType)
    (new : ModelType) (h : ∀ v ∈ variants, v.tag ≠ new.tag) :
    (∃ e, construct_parent variants (ChildValue.inst new) = Except.error e)
    ∧ add_type "child" (FieldKind.discUnion variants) new
        = Except.ok (FieldKind.discUnion (variants ++ [new]))
    ∧ construct_parent (variants ++ [new]) (ChildValue.inst new)
        = Except.ok new
    ∧ add_type "child" (FieldKind.listDiscUnion variants) new
        = Except.ok (FieldKind.listDiscUnion (variants ++ [new]))
    ∧ construct_parent_with_list (variants ++ [new]) [ChildValue.inst new]
        = Except.ok [new] := by
  have hfind : variants.find?
      (fun variant => variant.tag = new.tag) = none :=
    find?_tag_eq_none h
  have hfind' : (variants ++ [new]).find?
      (fun variant => variant.tag = new.tag) = some new :=
    find?_tag_append h
  have hany : variants.any (fun v => v.tag = new.tag) = false :=
    any_tag_eq_false h
  refine ⟨⟨VizroError.validationError (no_match_message new.tag), ?_⟩,
    ?_, ?_, ?_, ?_⟩
  · simp [construct_parent, validate_discriminated, ChildValue.tag, hfind]
  · simp [add_type, hany]
  · simp [construct_parent, validate_discriminated, ChildValue.tag, hfind]
  · simp [add_type, hany]
  · simp [construct_parent_with_list, validate_discriminated_list,
      validate_discriminated, ChildValue.tag, hfind]

/-- Witness for claim C2 at the test's input: after `add_type` of `ChildZ`
into the union over `ChildX` and `ChildY`, a `ChildZ` instance is accepted
and held by the field. -/
theorem add_type_model_instantiation_witness :
    (∃ e, construct_parent [child_x, child_y] (ChildValue.inst child_z)
      = Except.error e)
    ∧ add_type "child" (FieldKind.discUnion [child_x, child_y]) child_z
        = Except.ok (FieldKind.discUnion [child_x, child_y, child_z])
    ∧ construct_parent [child_x, child_y, child_z] (ChildValue.inst child_z)
        = Except.ok child_z
    ∧ add_type "child" (FieldKind.listDiscUnion [child_x, child_y]) child_z
        = Except.ok (FieldKind.listDiscUnion [child_x, child_y, child_z])
    ∧ construct_parent_with_list [child_x, child_y, child_z]
        [ChildValue.inst child_z] = Except.ok [child_z] :=
  add_type_model_instantiation [child_x, child_y] child_z (by decide)

/-- Claim C3: calling `add_type` on a field that is a plain
(non-discriminated) union raises a `ValueError` whose message is
`Field '<field>' must be a discriminated union` (for the tests' field,
`Field 'child' must be a discriminated union`); the result is the error for
every candidate type, so no registration takes place. -/
theorem add_type_non_discriminated_union (field_name : String)
    (variants : List ModelType) (new : ModelType) :
    add_type field_name (FieldKind.plainUnion variants) new
      = Except.error
          (VizroError.valueError (must_be_discriminated_message field_name))
      := rfl

/-- Claim C5: calling `add_type` with a variant whose literal `type` tag is
already registered among the union's variants errors, for both the scalar
and the list-of-discriminated-union field. -/
theorem add_type_duplicate_tag (variants : List ModelType)
    (v new : ModelType) (hmem : v ∈ variants) (htag : v.tag = new.tag) :
    add_type "child" (FieldKind.discUnion variants) new
      = Except.error
          (VizroError.validationError (duplicate_tag_message new.tag))
    ∧ add_type "child" (FieldKind.listDiscUnion variants) new
      = Except.error
          (VizroError.validationError (duplicate_tag_message new.tag)) := by
  have hany : variants.any (fun x => x.tag = new.tag) = true :=
    any_tag_eq_true hmem htag
  exact ⟨by simp [add_type, hany], by simp [add_type, hany]⟩

/-- Witness for claim C5: re-registering tag `child_x` (carried by a second
class `ChildX2`) into the union over `ChildX` and `ChildY` errors. -/
theorem add_type_duplicate_tag_witness :
    add_type "child" (FieldKind.discUnion [child_x, child_y])
        { name := "ChildX2", tag := "child_x" }
      = Except.error
          (VizroError.validationError (duplicate_tag_message "child_x"))
    ∧ add_type "child" (FieldKind.listDiscUnion [child_x, child_y])
        { name := "ChildX2", tag := "child_x" }
      = Except.error
          (VizroError.validationError (duplicate_tag_message "child_x")) :=
  add_type_duplicate_tag [child_x, child_y] child_x
    { name := "ChildX2", tag := "child_x" } (by decide) (by decide)

/-- Claim C6: a plain dict value on a discriminated-union field is resolved
by its literal `type` tag: for every registered variant (the registered tags
being distinct, as duplicate registration errors), a dict whose `type`
equals that variant's tag validates to an instance of exactly that variant
class, for the scalar and the list field alike. -/
theorem dict_instantiation_selects_variant (variants : List ModelType)
    (v : ModelType) (hnodup : (variants.map ModelType.tag).Nodup)
    (hmem : v ∈ variants) :
    construct_parent variants (ChildValue.dict v.tag) = Except.ok v
    ∧ construct_parent_with_list variants [ChildValue.dict v.tag]
      = Except.ok [v] := by
  have hfind : variants.find?
      (fun x => x.tag = v.tag) = some v :=
    find?_tag_nodup hnodup hmem
  refine ⟨?_, ?_⟩
  · simp [construct_parent, validate_discriminated, ChildValue.tag, hfind]
  · simp [construct_parent_with_list, validate_discriminated_list,
      validate_discriminated, ChildValue.tag, hfind]

/-- Witness for claim C6 at the test's input: after registering `ChildZ`,
the dict `{"type": "child_Z"}` validates to a `ChildZ` instance. -/
theorem dict_instantiation_selects_variant_witness :
    construct_parent [child_x, child_y, child_z] (ChildValue.dict "child_Z")
      = Except.ok child_z
    ∧ construct_parent_with_list [child_x, child_y, child_z]
        [ChildValue.dict "child_Z"] = Except.ok [child_z] :=
  dict_instantiation_selects_variant [child_x, child_y, child_z] child_z
    (by decide) (by decide)

/-- Claim C4: on a fresh model (`_callable_object_id` unset),
`Table.pre_build` raises its `ValueError` exactly when the actions list is
non-empty and the object returned by invoking the underlying table callable
(with an empty `data_frame`) has no `id` attribute; and whenever that object
does have an `id` attribute, `pre_build` stores it as the callable-object id
and does not raise, regardless of actions (and of any prior value of the
private attribute). -/
theorem pre_build_raises_iff (t : Table) :
    (t.pre_build none = Except.error pre_build_error_message
      ↔ t.actions.isEmpty = false ∧ t.underlying_table_object.attr_id = none)
    ∧ ∀ i : String, t.underlying_table_object.attr_id = some i →
        ∀ prior : Option String, t.pre_build prior = Except.ok (some i) := by
  constructor
  · cases hid : t.underlying_table_object.attr_id with
    | some i =>
      cases hempty : t.actions.isEmpty <;>
        simp [Table.pre_build, hid, hempty]
    | none =>
      cases hempty : t.actions.isEmpty <;>
        simp [Table.pre_build, hid, hempty]
  · intro i hi prior
    simp [Table.pre_build, hi]

/-- Witness for claim C4: the sample table's underlying object exposes the
id `underlying_table_id`, so `pre_build` stores it and succeeds. -/
theorem pre_build_raises_iff_witness :
    Table.pre_build sample_table none
      = Except.ok (some "underlying_table_id") :=
  (pre_build_raises_iff sample_table).2 "underlying_table_id" rfl none

/-- Claim C7: the `Table` model declares exactly the listed fields — the
base-model `id`, the required `figure`, `title` and `actions` — plus the
literal type tag (two tables agreeing on those fields are equal); its `type`
is the constant `"table"`, and constructing it from the required `figure`
(and an id) leaves `title = ""` and `actions = []`. -/
theorem table_declared_fields (id_str : String) (figure : CapturedCallable)
    (t1 t2 : Table) (hid : t1.id = t2.id) (hfig : t1.figure = t2.figure)
    (htitle : t1.title = t2.title) (hactions : t1.actions = t2.actions) :
    t1 = t2
    ∧ (∀ t : Table, t.type = "table")
    ∧ (Table.construct_with_defaults id_str figure).id = id_str
    ∧ (Table.construct_with_defaults id_str figure).figure = figure
    ∧ (Table.construct_with_defaults id_str figure).title = ""
    ∧ (Table.construct_with_defaults id_str figure).actions = [] := by
  refine ⟨?_, fun _ => rfl, rfl, rfl, rfl, rfl⟩
  cases t1
  cases t2
  simp_all

/-- Witness for claim C7 at the sample table. -/
theorem table_declared_fields_witness :
    sample_table = sample_table
    ∧ (∀ t : Table, t.type = "table")
    ∧ (Table.construct_with_defaults "table_id" sample_figure).id
        = "table_id"
    ∧ (Table.construct_with_defaults "table_id" sample_figure).figure
        = sample_figure
    ∧ (Table.construct_with_defaults "table_id" sample_figure).title = ""
    ∧ (Table.construct_with_defaults "table_id" sample_figure).actions
        = [] :=
  table_declared_fields "table_id" sample_figure sample_table sample_table
    rfl rfl rfl rfl

/-- Claim C8: `Table._filter_interaction` returns the input data frame
unchanged whenever the callback trigger's `active_cell` value or its
`derived_viewport_data` value is falsy; contrapositively, the data frame is
only filtered when both are present. -/
theorem filter_interaction_falsy_returns_input (self : Table)
    (source_table_actions : String → List Action) (data_frame : DataFrame)
    (target : String) (ctd : FilterInteractionCtd)
    (h : ctd.active_cell.value = none
      ∨ ctd.derived_viewport_data.value = []) :
    self.filter_interaction source_table_actions data_frame target ctd
      = Except.ok data_frame := by
  rcases h with h | h
  · simp [Table.filter_interaction, h]
  · cases hav : ctd.active_cell.value with
    | none => simp [Table.filter_interaction, hav]
    | some cell => simp [Table.filter_interaction, hav, h]

/-- Witness for claim C8: with a falsy `active_cell` value the sample data
frame comes back unchanged. -/
theorem filter_interaction_falsy_returns_input_witness :
    Table.filter_interaction sample_table (fun _ => []) sample_df
        "scatter_chart" sample_ctd = Except.ok sample_df :=
  filter_interaction_falsy_returns_input sample_table (fun _ => []) sample_df
    "scatter_chart" sample_ctd (Or.inl rfl)

/-- Claim C9: `Table.__getitem__` with the key `type` returns the model's
own type tag `"table"` rather than looking an argument up, and with every
other key it returns the corresponding argument lookup of the captured
figure callable. -/
theorem getitem_type_redirect (t : Table) (arg_name : String)
    (h : arg_name ≠ "type") :
    t.getitem "type" = Except.ok (PyVal.str "table")
    ∧ t.getitem arg_name = t.figure.getitem arg_name := by
  constructor
  · simp [Table.getitem, Table.type]
  · simp [Table.getitem, h]

/-- Witness for claim C9 at the sample table: `"type"` yields `"table"` and
`"page_size"` delegates to the figure's bound argument. -/
theorem getitem_type_redirect_witness :
    Table.getitem sample_table "type" = Except.ok (PyVal.str "table")
    ∧ Table.getitem sample_table "page_size"
      = CapturedCallable.getitem sample_figure "page_size" :=
  getitem_type_redirect sample_table "page_size" (by decide)

/-- Claim C10: for every model derived from the base model, the `dict()`
serialization contains the key `__vizro_model__` mapped to the model's class
name under every exclusion setting (no arguments, `exclude_unset=True`,
manual exclude sets, and model-defined `__vizro_exclude_fields__` all being
instances of the excluded-key predicate). -/
theorem vizro_dict_contains_model_key (m : VizroModelData)
    (excluded : String → Bool) :
    (vizro_dict m excluded).lookup "__vizro_model__"
      = some (PyVal.str m.class_name) := by
  unfold vizro_dict
  exact lookup_setKey _ _ _

end Vizro
